import Mathlib

/-!
Verification of the Particle Dance game engine (src/js/game.js, src/js/particles.js,
and the utility functions) against its natural-language specification.

The embedding uses exact rational arithmetic.  The source compares Euclidean
distances (square roots) only against non-negative thresholds or against other
distances, so every comparison is translated faithfully into a comparison of
squared distances: for d2 = dist^2 with d2 >= 0 we have
  sqrt d2 < r  iff  0 < r and d2 < r^2,
  sqrt d2 <= r iff  0 <= r and d2 <= r^2,
and sqrt is monotone, so comparing two distances is comparing their squares.
JavaScript runtime errors (a temporal-dead-zone self reference, assignment to a
const binding) are embedded as the error case of an Except value.
-/

namespace ParticleDance

/-- A JavaScript runtime error raised inside the engine. -/
inductive JsError where
  | referenceError
  | typeError
deriving DecidableEq, Repr

/-- The fields of CollectionPoint (src/js/particles.js, class CollectionPoint)
that the simulation logic reads: position, radius, value and the collected flag. -/
structure CPoint where
  x : ℚ
  y : ℚ
  radius : ℚ
  value : ℚ
  collected : Bool
deriving DecidableEq, Repr

/-- The fields of Particle (src/js/particles.js, class Particle) that the
game-level collision and force code reads: position, velocity, active flag. -/
structure Particle where
  x : ℚ
  y : ℚ
  speedX : ℚ
  speedY : ℚ
  active : Bool
deriving DecidableEq, Repr

/-- Squared Euclidean distance; the square of distance(x1,y1,x2,y2) from the
utility module. -/
def dist2 (p q : ℚ × ℚ) : ℚ := (q.1 - p.1) ^ 2 + (q.2 - p.2) ^ 2

/-- Faithful translation of the source comparison sqrt d2 < r (for d2 >= 0):
true iff 0 < r and d2 < r^2. -/
def sqrtLt (d2 r : ℚ) : Bool := decide (0 < r) && decide (d2 < r ^ 2)

/-- Faithful translation of the source comparison sqrt d2 <= r (for d2 >= 0):
true iff 0 <= r and d2 <= r^2. -/
def sqrtLe (d2 r : ℚ) : Bool := decide (0 ≤ r) && decide (d2 ≤ r ^ 2)

/-! ### C1: the magnet branch of Game.update (src/js/game.js lines 289-312)

The loop scans the collection points keeping the closest uncollected one
(strict comparison, initial distance Infinity, here the None accumulator).
If one is found within 200 units the source executes
  const angle = angle(particle.x, particle.y, closestPoint.x, closestPoint.y);
The block-scoped const shadows the global angle helper, so the right-hand side
reads the binding inside its temporal dead zone and throws a ReferenceError. -/

/-- The closest-uncollected-point scan of the magnet branch, tracking squared
distances (the comparison dist < closestDistance is equivalent on squares). -/
def closestUncollected (px py : ℚ) (pts : List CPoint) : Option (CPoint × ℚ) :=
  pts.foldl
    (fun acc c =>
      if c.collected then acc
      else
        let d2 := dist2 (px, py) (c.x, c.y)
        match acc with
        | none => some (c, d2)
        | some best => if d2 < best.2 then some (c, d2) else acc)
    none

/-- The magnet phase of Game.update for one particle: when the magnet power-up
is active and the closest uncollected collection point is within 200 units, the
source throws a ReferenceError (the self-shadowing const angle declaration);
otherwise the particle is left unchanged by this phase. -/
def magnetPhase (magnetActive : Bool) (pts : List CPoint) (p : Particle) :
    Except JsError Particle :=
  if magnetActive then
    match closestUncollected p.x p.y pts with
    | some best =>
        if sqrtLt best.2 200 then Except.error JsError.referenceError
        else Except.ok p
    | none => Except.ok p
  else Except.ok p

/-! ### C2: ParticleEmitter.emit (src/js/particles.js lines 182-217)

emit computes particlesToCreate = Math.floor(this.rate) as a const binding,
accumulates this.rateFraction += this.rate - particlesToCreate, and when the
fraction reaches 1 executes particlesToCreate++, an assignment to a const
binding, which throws a TypeError.  On the non-throwing path the creation loop
breaks as soon as the pool holds maxParticles particles. -/

/-- The fields of ParticleEmitter read by emit; poolSize is the length of the
owned particles array. -/
structure EmitterState where
  rate : ℚ
  rateFraction : ℚ
  poolSize : ℕ
  maxParticles : ℕ
  active : Bool
deriving DecidableEq, Repr

/-- One call to ParticleEmitter.emit: returns the number of particles created
and the updated emitter state, or the TypeError thrown by particlesToCreate++
when the carried fraction reaches 1. -/
def emit (e : EmitterState) : Except JsError (ℕ × EmitterState) :=
  if !e.active then Except.ok (0, e)
  else
    let toCreate : ℤ := ⌊e.rate⌋
    let frac := e.rateFraction + (e.rate - (toCreate : ℚ))
    if 1 ≤ frac then Except.error JsError.typeError
    else
      let created := min toCreate.toNat (e.maxParticles - e.poolSize)
      Except.ok (created, { e with rateFraction := frac, poolSize := e.poolSize + created })

/-- Iterate emit, propagating a thrown error. -/
def emitN : ℕ → EmitterState → Except JsError EmitterState
  | 0, e => Except.ok e
  | n + 1, e =>
    match emit e with
    | Except.ok r => emitN n r.2
    | Except.error err => Except.error err

/-! ### C3: the power-up spawn gate (src/js/game.js line 379)

Game.update guards the spawn attempt with  if (random() < this.powerUpChance).
The utility  random(min, max) = Math.random() * (max - min) + min  is called
with no arguments, so min and max are undefined and every arithmetic step
yields NaN; a NaN comparison is false.  NaN/undefined is embedded as none. -/

/-- JavaScript binary arithmetic on numbers that may be NaN (none). -/
def jsBin (f : ℚ → ℚ → ℚ) : Option ℚ → Option ℚ → Option ℚ
  | some a, some b => some (f a b)
  | _, _ => none

/-- JavaScript < on numbers that may be NaN: any comparison with NaN is false. -/
def jsLt : Option ℚ → Option ℚ → Bool
  | some a, some b => decide (a < b)
  | _, _ => false

/-- The utility random(min, max) given the Math.random() draw u, with possibly
missing (undefined, none) arguments: u * (max - min) + min. -/
def randomJS (u : ℚ) (lo hi : Option ℚ) : Option ℚ :=
  jsBin (· + ·) (jsBin (· * ·) (some u) (jsBin (fun a b => a - b) hi lo)) lo

/-- The per-tick spawn gate of Game.update: random() < powerUpChance, where
random is called with no arguments. -/
def powerUpGate (u chance : ℚ) : Bool :=
  jsLt (randomJS u none none) (some chance)

/-! ### C4: the time-slow velocity scaling (src/js/game.js lines 284-287
combined with the friction step of Particle.update, src/js/particles.js
lines 86-92)

Each particle object is updated twice per tick: ParticleEmitter.emit pushes
every new particle both into the emitter pool and (via the return value) into
the game particle list, and Game.update first runs the emitter loop (line
277), whose ParticleEmitter.update calls Particle.update on the pooled
particles, and then runs the main particle loop, which applies the time-slow
scale (lines 284-287) and calls Particle.update on the same objects again
(line 314).  Each Particle.update multiplies both velocity components by the
friction factor 0.98.  For a force-free particle (no gravity, no paths, no
obstacles) the per-tick velocity change is therefore friction, then the
time-slow scale, then friction again. -/

/-- The speed multiplier of Game.update line 285. -/
def timeSlowFactor (slow : Bool) : ℚ := if slow then 1 / 2 else 1

/-- One tick of velocity evolution for a force-free particle: the friction
factor 0.98 = 49/50 applied by the emitter-phase Particle.update, then the
time-slow scaling of the main loop, then the friction factor applied by the
main-loop Particle.update. -/
def tickVel (slow : Bool) (v : ℚ × ℚ) : ℚ × ℚ :=
  let v1 := (v.1 * (49 / 50), v.2 * (49 / 50))
  let v2 := (v1.1 * timeSlowFactor slow, v1.2 * timeSlowFactor slow)
  (v2.1 * (49 / 50), v2.2 * (49 / 50))

/-- Velocity of a force-free particle after k consecutive ticks. -/
def iterVel (slow : Bool) : ℕ → ℚ × ℚ → ℚ × ℚ
  | 0, v => v
  | n + 1, v => iterVel slow n (tickVel slow v)

/-! ### C5 and C10: collection-point collision resolution
(src/js/game.js lines 326-337, src/js/particles.js lines 481-494)

For one particle, Game.update iterates over all collection points with no
early exit: every point whose checkCollision accepts the particle position is
collected and its (possibly doubled) value added to the score.  The loop never
writes to the particle. -/

/-- CollectionPoint.checkCollision: not yet collected and the particle center
within the radius (distance <= radius, translated to squares). -/
def cpCheckCollision (c : CPoint) (px py : ℚ) : Bool :=
  !c.collected && sqrtLe (dist2 (px, py) (c.x, c.y)) c.radius

/-- CollectionPoint.collect: returns 0 and leaves the point unchanged when
already collected, otherwise marks it collected and returns its value. -/
def cpCollect (c : CPoint) : ℚ × CPoint :=
  if c.collected then (0, c) else (c.value, { c with collected := true })

/-- The score gain of one collection: value, doubled when the Multiplier
power-up is active (src/js/game.js line 330). -/
def collectGain (multiplier : Bool) (v : ℚ) : ℚ := if multiplier then v * 2 else v

/-- The collection loop of Game.update for one particle at (px, py): walks the
collection points in order, collecting every point whose region contains the
particle and accumulating the score. -/
def processCollections (multiplier : Bool) (px py : ℚ) :
    List CPoint → ℚ → List CPoint × ℚ
  | [], s => ([], s)
  | c :: rest, s =>
    if cpCheckCollision c px py then
      let hit := cpCollect c
      let out := processCollections multiplier px py rest (s + collectGain multiplier hit.1)
      (hit.2 :: out.1, out.2)
    else
      let out := processCollections multiplier px py rest s
      (c :: out.1, out.2)

/-- The whole collection phase for one particle: the loop reads only the
particle position and never writes to the particle. -/
def collectionPhase (multiplier : Bool) (p : Particle) (pts : List CPoint) (s : ℚ) :
    Particle × List CPoint × ℚ :=
  let out := processCollections multiplier p.x p.y pts s
  (p, out.1, out.2)

/-! ### C6: the power-up expiry timers (src/js/game.js lines 466-477)

Game.activatePowerUp sets the active flag of the type to true and schedules,
via setTimeout, a callback that sets the flag to false after the payload
duration.  A later pickup of the same type schedules a second callback but
never cancels the first one.  The flag over wall-clock time is therefore
determined by the latest event at or before the query time, where each pickup
(s, d) contributes a set-true event at s and a set-false event at s + d.  The
single-threaded event loop runs callbacks in time order; simultaneous events
do not occur in the scenarios proved below (the tie-break here prefers the
set-false event). -/

/-- The events generated by a list of pickups (time, duration): a set-true
event at each pickup time and a set-false event at each scheduled expiry. -/
def puEvents (pickups : List (ℚ × ℚ)) : List (ℚ × Bool) :=
  pickups.map (fun pk => (pk.1, true)) ++ pickups.map (fun pk => (pk.1 + pk.2, false))

/-- Of two events, the one taking effect later (ties prefer set-false). -/
def laterEvent (a b : ℚ × Bool) : ℚ × Bool :=
  if a.1 < b.1 then b else if b.1 < a.1 then a else if b.2 then a else b

/-- The last event at or before time t, if any. -/
def lastEventLe (evs : List (ℚ × Bool)) (t : ℚ) : Option (ℚ × Bool) :=
  evs.foldl
    (fun acc ev =>
      if ev.1 ≤ t then
        match acc with
        | none => some ev
        | some a => some (laterEvent a ev)
      else acc)
    none

/-- Whether the active flag of one power-up type is set at wall-clock time t,
given the pickups (time, duration) of that type: the value written by the
latest pickup or expiry callback that has run by time t. -/
def activeAt (pickups : List (ℚ × ℚ)) (t : ℚ) : Bool :=
  match lastEventLe (puEvents pickups) t with
  | some ev => ev.2
  | none => false

/-! ### C7: ordering of one tick of Game.update (src/js/game.js lines 265-402)

The particle loop runs once per particle (indices walked from high to low) and
inside a single iteration performs, in order: the physics step of that
particle, its obstacle collision tests, its collection-point collision tests,
its power-up collision tests, and its pruning check.  The level-complete check
and the game-over check run after the loop.  The tick is embedded as the trace
of these events. -/

/-- The observable events of one tick of Game.update. -/
inductive Ev where
  | phys (i : ℕ)
  | collObstacle (i : ℕ)
  | collPoint (i : ℕ)
  | collPower (i : ℕ)
  | pruneCheck (i : ℕ)
  | levelCheck
  | gameOverCheck
deriving DecidableEq, Repr

/-- The body of one iteration of the particle loop, for particle index i. -/
def particleBlock (i : ℕ) : List Ev :=
  [Ev.phys i, Ev.collObstacle i, Ev.collPoint i, Ev.collPower i, Ev.pruneCheck i]

/-- The particle loop over indices n-1, n-2, ..., 0 (the source iterates the
array backwards). -/
def loopTrace : ℕ → List Ev
  | 0 => []
  | n + 1 => particleBlock n ++ loopTrace n

/-- The event trace of one tick with n particles: the per-particle loop
followed by the level-complete and game-over checks. -/
def tickTrace (n : ℕ) : List Ev := loopTrace n ++ [Ev.levelCheck, Ev.gameOverCheck]

/-- Index of the first occurrence of an event in a trace. -/
def evIdx (e : Ev) (l : List Ev) : ℕ := l.findIdx (fun x => x == e)

/-! ### C8: the level-complete transition (src/js/game.js lines 383-386 and
Game.nextLevel, lines 482-497)

Game.update fires nextLevel exactly when every collection point is collected.
nextLevel increments the level, multiplies particleSpeed and spawnRate by 1.1,
sets powerUpChance to min(powerUpChance x 1.05, 0.05), regenerates the layout
via createLevel (whose freshly constructed collection points are abstracted
here as a parameter standing for the random outcome), and adds 100 x newLevel
to the score.  Nothing in this path leaves the Playing state. -/

/-- The session state of Game read and written by the level transition. -/
structure GameState where
  level : ℕ
  score : ℚ
  particleSpeed : ℚ
  spawnRate : ℚ
  powerUpChance : ℚ
  points : List CPoint
  isPlaying : Bool
deriving DecidableEq, Repr

/-- Game.nextLevel; newPoints stands for the collection points produced by the
createLevel call for the new level. -/
def nextLevel (g : GameState) (newPoints : List CPoint) : GameState :=
  { g with
    level := g.level + 1,
    particleSpeed := g.particleSpeed * (11 / 10),
    spawnRate := g.spawnRate * (11 / 10),
    powerUpChance := min (g.powerUpChance * (21 / 20)) (1 / 20),
    points := newPoints,
    score := g.score + 100 * ((g.level : ℚ) + 1) }

/-- The level-complete check of Game.update: fire nextLevel iff every
collection point is collected. -/
def levelCheckStep (g : GameState) (newPoints : List CPoint) : GameState :=
  if g.points.all (fun c => c.collected) then nextLevel g newPoints else g

/-! ### C9: obstacle placement in Game.createLevel (src/js/game.js lines
139-171)

For each requested obstacle the source samples up to 50 random positions,
accepting the first one at distance at least 150 from every emitter; when all
50 attempts fail the obstacle is skipped.  The random draws are modelled as
the list of sampled positions. -/

/-- The acceptance test of one sampled obstacle position: no emitter within
150 units (the source rejects when distance < 150). -/
def validObstaclePos (emitters : List (ℚ × ℚ)) (p : ℚ × ℚ) : Bool :=
  emitters.all fun e => !(sqrtLt (dist2 p e) 150)

/-- The rejection-sampling loop for one obstacle: the first of at most 50
sampled positions that passes the acceptance test, none when all fail. -/
def placeObstacle (emitters : List (ℚ × ℚ)) (draws : List (ℚ × ℚ)) : Option (ℚ × ℚ) :=
  (draws.take 50).find? (validObstaclePos emitters)

/-- The obstacle-creation loop of createLevel: count placement rounds, each
with its own draw list; failed rounds contribute no obstacle. -/
def createObstacles (emitters : List (ℚ × ℚ)) (drawsList : List (List (ℚ × ℚ)))
    (count : ℕ) : List (ℚ × ℚ) :=
  (drawsList.take count).filterMap (placeObstacle emitters)

end ParticleDance

namespace ParticleDance

/-- C1: the claim states that with the Magnet power-up active the engine adds
an attraction of magnitude 0.2 x (1 - dist/200) toward the nearest uncollected
collection point and that the physics path completes without raising an
exception.  Evaluating the embedded code at a magnet-active tick with one
particle at the origin and one uncollected point 100 units away (inside the
200-unit range) shows the path instead throws a ReferenceError: the source
line  const angle = angle(...)  reads the block-scoped const inside its
temporal dead zone. -/
theorem C1_magnet_branch_throws :
    magnetPhase true [⟨100, 0, 15, 10, false⟩] ⟨0, 0, 0, 0, true⟩ =
      Except.error JsError.referenceError := by
  norm_num [magnetPhase, closestUncollected, dist2, sqrtLt]

/-- C2: the claim states that emit carries the fractional remainder across
calls, creating an extra particle when the remainder reaches 1, and never
fails.  Evaluating the embedded emit at rate 1/2 shows the second call throws
a TypeError: the extra-particle branch executes particlesToCreate++ on a const
binding. -/
theorem C2_emit_throws_on_fractional_rate :
    emitN 2 ⟨1 / 2, 0, 0, 100, true⟩ = Except.error JsError.typeError := by
  norm_num [emitN, emit]

/-- C3: the claim states that for any per-tick draw strictly below the
positive powerUpChance the spawn attempt occurs.  In the code the guard calls
random() with no arguments, which returns NaN, and NaN < powerUpChance is
false, so the gate never fires for any draw and any chance. -/
theorem C3_spawn_gate_never_fires : ∀ u chance : ℚ, powerUpGate u chance = false :=
  fun _ _ => rfl

/-- C4 counterexample: the claim states that across consecutive active ticks
the time-slow factor applied to a force-free particle stays 0.5 rather than
compounding to 0.25.  With unit initial horizontal velocity, two active ticks
yield (0.5 x 0.98^2)^2 = 5764801/25000000, while a constant factor 0.5 on top
of the force-free evolution would give 0.5 x (0.98^2)^2 = 5764801/12500000:
the scaling does compound. -/
theorem C4_counterexample :
    (iterVel true 2 (1, 0)).1 = 5764801 / 25000000 ∧
      (1 / 2 : ℚ) * (iterVel false 2 (1, 0)).1 ≠ (iterVel true 2 (1, 0)).1 := by
  norm_num [iterVel, tickVel, timeSlowFactor]

/-- C4 amended: the 0.5 time-slow scale is applied anew every active tick and
compounds with the two friction steps of the tick (the particle objects are
updated both by the emitter loop and by the main loop): after k consecutive
active ticks a force-free particle velocity is (0.5 x 0.98^2)^k =
(2401/5000)^k times the initial velocity in both components, so the factor
attributable to time-slow is 0.5^k, not a constant 0.5. -/
theorem C4_amended (k : ℕ) (v : ℚ × ℚ) :
    iterVel true k v = ((2401 / 5000) ^ k * v.1, (2401 / 5000) ^ k * v.2) := by
  induction k generalizing v with
  | zero => simp [iterVel]
  | succ n ih =>
    show iterVel true n (tickVel true v) = _
    rw [ih]
    simp only [tickVel, timeSlowFactor, if_pos rfl]
    refine Prod.ext ?_ ?_ <;> simp <;> ring

theorem processCollections_spec (m : Bool) (px py : ℚ) (pts : List CPoint) (s : ℚ) :
    processCollections m px py pts s =
      (pts.map (fun c => if cpCheckCollision c px py then (cpCollect c).2 else c),
       s + ((pts.filter (fun c => cpCheckCollision c px py)).map
          (fun c => collectGain m (cpCollect c).1)).sum) := by
  induction pts generalizing s with
  | nil => simp [processCollections]
  | cons c rest ih =>
    by_cases h : cpCheckCollision c px py
    · simp [processCollections, h, ih, List.filter_cons, add_assoc]
    · simp [processCollections, h, ih, List.filter_cons]

/-- C5 counterexample: the claim states that a particle lying inside the radii
of several uncollected collection points collects exactly one of them in that
tick.  With two uncollected points of value 10 both containing the particle,
the loop (which has no early exit) collects both and adds 20 to the score. -/
theorem C5_counterexample :
    ((processCollections false 0 0 [⟨0, 0, 15, 10, false⟩, ⟨0, 0, 15, 10, false⟩] 0).1.countP
        (fun c => c.collected) = 2) ∧
      (processCollections false 0 0 [⟨0, 0, 15, 10, false⟩, ⟨0, 0, 15, 10, false⟩] 0).2 = 20 := by
  norm_num [processCollections, cpCheckCollision, cpCollect, collectGain, sqrtLe, dist2,
    List.countP, List.countP.go]

/-- C5 amended: in one tick a particle collects every uncollected collection
point whose radius contains it (possibly several), each contributing its
(possibly doubled) value to the score; the particle itself is not modified by
the collection loop, in particular it is not deactivated. -/
theorem C5_amended (multiplier : Bool) (p : Particle) (pts : List CPoint) (s : ℚ) :
    (collectionPhase multiplier p pts s).1 = p ∧
      (collectionPhase multiplier p pts s).2.1 =
        pts.map (fun c => if cpCheckCollision c p.x p.y then (cpCollect c).2 else c) ∧
      (collectionPhase multiplier p pts s).2.2 =
        s + ((pts.filter (fun c => cpCheckCollision c p.x p.y)).map
          (fun c => collectGain multiplier (cpCollect c).1)).sum := by
  refine ⟨rfl, ?_, ?_⟩ <;>
    simp [collectionPhase, processCollections_spec]

/-- C6 counterexample: the claim states that a second pickup of an active type
restarts its expiry timer, keeping the flag true for the full new duration.
With pickups of the same type at times 0 and 5, each of duration 10, the flag
is already false at time 12 even though the second pickup promises activity
until time 15: the callback scheduled by the first pickup fires at time 10 and
clears the flag. -/
theorem C6_counterexample : activeAt [(0, 10), (5, 10)] 12 = false := by
  norm_num [activeAt, lastEventLe, puEvents, laterEvent]

/-- C6 amended: a pickup while the type is already active sets the flag and
schedules an additional expiry callback without cancelling the earlier one, so
the earliest pending expiry still fires: for two pickups of one type at times
s1 <= s2 with s2 inside the first window and s1 + d1 < s2 + d2, the flag is
false at any time strictly between the first expiry s1 + d1 and the second
expiry s2 + d2, before the full duration of the second pickup has elapsed. -/
theorem C6_amended (s1 d1 s2 d2 t : ℚ) (h1 : s1 ≤ s2) (h2 : s2 < s1 + d1)
    (h3 : s1 + d1 < t) (h4 : t < s2 + d2) :
    activeAt [(s1, d1), (s2, d2)] t = false := by
  have e1 : s1 ≤ t := by linarith
  have e2 : s2 ≤ t := by linarith
  have e3 : s1 + d1 ≤ t := le_of_lt h3
  have e4 : ¬ s2 + d2 ≤ t := not_le.mpr h4
  simp only [activeAt, lastEventLe, puEvents, List.map_cons, List.map_nil, List.cons_append,
    List.nil_append, List.foldl_cons, List.foldl_nil, e1, e2, e3, e4, if_true, if_false,
    ite_true, ite_false]
  simp only [laterEvent]
  split_ifs <;> simp_all <;> linarith

theorem C6_amended_witness :
    ((0 : ℚ) ≤ 0 ∧ (0 : ℚ) < 0 + 10 ∧ (0 : ℚ) + 10 < 13 ∧ (13 : ℚ) < 0 + 20) ∧
      activeAt [(0, 10), (0, 20)] 13 = false :=
  ⟨⟨le_refl 0,
    lt_of_lt_of_eq (by decide : (0 : ℚ) < 10) (zero_add 10).symm,
    lt_of_eq_of_lt (zero_add 10) (by decide : (10 : ℚ) < 13),
    lt_of_lt_of_eq (by decide : (13 : ℚ) < 20) (zero_add 20).symm⟩,
   C6_amended 0 10 0 20 13 (le_refl 0)
     (lt_of_lt_of_eq (by decide : (0 : ℚ) < 10) (zero_add 10).symm)
     (lt_of_eq_of_lt (zero_add 10) (by decide : (10 : ℚ) < 13))
     (lt_of_lt_of_eq (by decide : (13 : ℚ) < 20) (zero_add 20).symm)⟩

/-- C7 counterexample: the claim states that within one tick the physics steps
of all particles complete before any collision test runs.  In the trace of a
two-particle tick, the obstacle collision test of particle 1 (processed first,
the loop walks indices downwards) occurs at index 1, before the physics step
of particle 0 at index 5. -/
theorem C7_counterexample :
    evIdx (Ev.collObstacle 1) (tickTrace 2) < evIdx (Ev.phys 0) (tickTrace 2) := by
  decide

theorem particleBlock_sublist_loopTrace {i n : ℕ} (h : i < n) :
    (particleBlock i).Sublist (loopTrace n) := by
  induction n with
  | zero => exact absurd h (Nat.not_lt_zero i)
  | succ m ih =>
    rcases Nat.lt_succ_iff_lt_or_eq.mp h with h' | rfl
    · exact (ih h').trans (List.sublist_append_right _ _)
    · exact List.sublist_append_left _ _

/-- C7 amended: physics and collision tests are interleaved per particle: for
each particle the tick performs, in order, its own physics step, then its
obstacle, collection-point and power-up collision tests, then its pruning
check, and the level-complete and game-over checks run strictly after the
whole particle loop; but a collision test of one particle may run before the
physics step of another particle of the same tick. -/
theorem C7_amended (n i : ℕ) (h : i < n) :
    ([Ev.phys i, Ev.collObstacle i, Ev.collPoint i, Ev.collPower i, Ev.pruneCheck i,
      Ev.levelCheck, Ev.gameOverCheck]).Sublist (tickTrace n) := by
  have hb : (particleBlock i ++ [Ev.levelCheck, Ev.gameOverCheck]).Sublist (tickTrace n) :=
    List.Sublist.append (particleBlock_sublist_loopTrace h) (List.Sublist.refl _)
  simpa [particleBlock] using hb

theorem C7_amended_witness :
    1 < 2 ∧
      ([Ev.phys 1, Ev.collObstacle 1, Ev.collPoint 1, Ev.collPower 1, Ev.pruneCheck 1,
        Ev.levelCheck, Ev.gameOverCheck]).Sublist (tickTrace 2) :=
  ⟨by decide, C7_amended 2 1 (by decide)⟩

/-- C8: the level-complete transition fires iff every collection point of the
current level is collected; when it fires it increments the level by exactly
1, adds the bonus 100 x newLevel so the score does not decrease, multiplies
particleSpeed and spawnRate by 1.1, multiplies powerUpChance by 1.05 capped at
0.05, replaces the collection points by the freshly generated layout, and
leaves the playing flag unchanged.  When some point is uncollected the state
is unchanged. -/
theorem C8_level_transition (g : GameState) (newPoints : List CPoint) :
    (g.points.all (fun c => c.collected) = true →
      (levelCheckStep g newPoints).level = g.level + 1 ∧
        (levelCheckStep g newPoints).score = g.score + 100 * ((g.level : ℚ) + 1) ∧
        g.score ≤ (levelCheckStep g newPoints).score ∧
        (levelCheckStep g newPoints).particleSpeed = g.particleSpeed * (11 / 10) ∧
        (levelCheckStep g newPoints).spawnRate = g.spawnRate * (11 / 10) ∧
        (levelCheckStep g newPoints).powerUpChance = min (g.powerUpChance * (21 / 20)) (1 / 20) ∧
        (levelCheckStep g newPoints).points = newPoints ∧
        (levelCheckStep g newPoints).isPlaying = g.isPlaying) ∧
      (g.points.all (fun c => c.collected) = false → levelCheckStep g newPoints = g) := by
  constructor
  · intro h
    simp only [levelCheckStep, h, if_true, nextLevel]
    refine ⟨trivial, trivial, ?_, trivial, trivial, trivial, trivial, trivial⟩
    have hpos : (0 : ℚ) ≤ 100 * ((g.level : ℚ) + 1) := by positivity
    linarith
  · intro h
    simp [levelCheckStep, h]

theorem C8_level_transition_witness :
    ([(⟨0, 0, 15, 10, true⟩ : CPoint)].all (fun c => c.collected) = true) ∧
      (levelCheckStep ⟨1, 0, 1, 1, 1 / 100, [⟨0, 0, 15, 10, true⟩], true⟩ []).level = 2 :=
  ⟨by decide,
   (C8_level_transition ⟨1, 0, 1, 1, 1 / 100, [⟨0, 0, 15, 10, true⟩], true⟩ []).1 (by decide) |>.1⟩

/-- C9: every obstacle whose placement succeeds lies at least 150 units (in
squared distance, at least 22500) from every emitter; the created list never
exceeds the requested count; when every sampled attempt is rejected the
placement returns none and the obstacle is silently skipped; and a level can
end up with fewer obstacles than requested, as on the concrete input where the
single draw falls on the emitter. -/
theorem C9_obstacle_placement (emitters : List (ℚ × ℚ)) (drawsList : List (List (ℚ × ℚ)))
    (count : ℕ) :
    (∀ p ∈ createObstacles emitters drawsList count, ∀ e ∈ emitters,
        (22500 : ℚ) ≤ dist2 p e) ∧
      (createObstacles emitters drawsList count).length ≤ count ∧
      (∀ draws : List (ℚ × ℚ), (∀ p ∈ draws, validObstaclePos emitters p = false) →
        placeObstacle emitters draws = none) ∧
      createObstacles [(0, 0)] [[(0, 0)]] 1 = [] := by
  refine ⟨?_, ?_, ?_, ?_⟩
  · intro p hp e he
    obtain ⟨draws, _, hfind⟩ := List.mem_filterMap.mp hp
    simp only [placeObstacle] at hfind
    have hvalid : validObstaclePos emitters p = true := List.find?_some hfind
    simp only [validObstaclePos, List.all_eq_true, Bool.not_eq_true'] at hvalid
    have h2 := hvalid e he
    simp only [sqrtLt, Bool.and_eq_false_iff, decide_eq_false_iff_not, not_lt] at h2
    rcases h2 with h2 | h2
    · exfalso; norm_num at h2
    · calc (22500 : ℚ) = 150 ^ 2 := by norm_num
        _ ≤ dist2 p e := h2
  · refine le_trans (List.length_filterMap_le _ _) ?_
    rw [List.length_take]
    exact Nat.min_le_left _ _
  · intro draws hall
    simp only [placeObstacle]
    rw [List.find?_eq_none]
    intro x hx
    simp [hall x (List.mem_of_mem_take hx)]
  · norm_num [createObstacles, placeObstacle, validObstaclePos, sqrtLt, dist2, List.find?_cons]

theorem C9_obstacle_placement_witness :
    (∀ p ∈ ([] : List (ℚ × ℚ)), validObstaclePos [] p = false) ∧
      placeObstacle [] [] = none :=
  ⟨by simp, ((C9_obstacle_placement [] [] 0).2.2.1 [] (by simp))⟩

/-- C10: the score never decreases: the collection loop of one tick adds only
non-negative amounts when every collection point value is non-negative (an
already collected point yields 0 from collect), and the level bonus strictly
increases the score; these are the only score mutations between start and
endGame. -/
theorem C10_score_monotone (multiplier : Bool) (px py s : ℚ) (pts : List CPoint)
    (h : ∀ c ∈ pts, 0 ≤ c.value) :
    s ≤ (processCollections multiplier px py pts s).2 ∧
      (∀ (g : GameState) (newPts : List CPoint), g.score < (nextLevel g newPts).score) ∧
      (∀ c : CPoint, c.collected = true → (cpCollect c).1 = 0) := by
  refine ⟨?_, ?_, ?_⟩
  · have hsum : 0 ≤ ((pts.filter (fun c => cpCheckCollision c px py)).map
        (fun c => collectGain multiplier (cpCollect c).1)).sum := by
      refine List.sum_nonneg ?_
      intro x hx
      obtain ⟨c, hcf, rfl⟩ := List.mem_map.mp hx
      obtain ⟨hcp, hchk⟩ := List.mem_filter.mp hcf
      have hcol : c.collected = false := by
        simp only [cpCheckCollision, Bool.and_eq_true, Bool.not_eq_true'] at hchk
        exact hchk.1
      have hv := h c hcp
      simp only [cpCollect, hcol, if_false, collectGain]
      cases multiplier <;> simp <;> linarith
    rw [processCollections_spec]
    exact le_add_of_nonneg_right hsum
  · intro g newPts
    have hpos : (0 : ℚ) < 100 * ((g.level : ℚ) + 1) := by positivity
    simp only [nextLevel]
    linarith
  · intro c hcol
    simp [cpCollect, hcol]

theorem C10_score_monotone_witness :
    (∀ c ∈ [(⟨0, 0, 15, 10, false⟩ : CPoint)], 0 ≤ c.value) ∧
      (0 : ℚ) ≤ (processCollections false 0 0 [⟨0, 0, 15, 10, false⟩] 0).2 :=
  ⟨by decide, (C10_score_monotone false 0 0 0 [⟨0, 0, 15, 10, false⟩] (by decide)).1⟩

end ParticleDance
